import Mathlib

/-!
Verification of the shapewarp_mcp job subsystem and tool layer.

The server tools of src/server.py and the script entry points under
scripts/ are embedded as executable Lean functions.  The background job
manager imported by the server as jobs.manager is not among the repository
sources, so its registry, executor and control operations are modelled
from the design document; every such definition carries a doc comment
starting with the words Modelled from the spec.
-/

/-- A Python value appearing in an args dict handed to submit_job.
src/server.py passes strings, one int (the window-size value in
submit_reactivity_analysis) and Python None (the output value in
submit_batch_shape_search). -/
inductive ArgVal where
  | str (s : String)
  | int (n : Int)
  | none
  deriving DecidableEq, Repr

/-- Python str rendering of an ArgVal, as it would appear as one
command-line token. -/
def pyStr : ArgVal → String
  | ArgVal.str s => s
  | ArgVal.int n => toString n
  | ArgVal.none => "None"

/-- Whether an ArgVal is a Python string. -/
def isStrVal : ArgVal → Bool
  | ArgVal.str _ => true
  | _ => false

/-- Job lifecycle states (spec section 3). -/
inductive JobStatus where
  | pending
  | running
  | completed
  | failed
  | cancelled
  deriving DecidableEq, Repr, Fintype

/-- Terminal states: completed, failed and cancelled (spec glossary). -/
def JobStatus.isTerminal : JobStatus → Bool
  | JobStatus.completed => true
  | JobStatus.failed => true
  | JobStatus.cancelled => true
  | _ => false

/-- Progress rank along pending, running, terminal. -/
def JobStatus.rank : JobStatus → Nat
  | JobStatus.pending => 0
  | JobStatus.running => 1
  | _ => 2

/-- Modelled from the spec: the Job record kept by the registry of the
missing jobs/manager.py (spec section 3): id, name, script path, ordered
args, status, append-only log buffer and error field. -/
structure Job where
  jobId : String
  name : String
  scriptPath : String
  args : List (String × ArgVal)
  status : JobStatus
  log : List String
  error : Option String
  deriving DecidableEq, Repr

/-- Modelled from the spec: the registry of jobs (spec section 4.1)
together with a counter used to assign fresh job ids at submission. -/
structure JobManager where
  jobs : List Job
  counter : Nat
  deriving DecidableEq, Repr

/-- Modelled from the spec: registry lookup by id (spec section 4.1). -/
def findJob (m : JobManager) (id : String) : Option Job :=
  m.jobs.find? (fun j => j.jobId == id)

/-- Modelled from the spec: jobs/manager.py is not among the repository
sources; per spec section 4.2, submit_job creates the Job in pending with
a fresh id and returns the id immediately, before any process activity. -/
def submit_job (m : JobManager) (script_path : String)
    (args : List (String × ArgVal)) (job_name : String) : JobManager × String :=
  let id := "job_" ++ toString m.counter
  let job : Job :=
    { jobId := id, name := job_name, scriptPath := script_path, args := args,
      status := JobStatus.pending, log := [], error := Option.none }
  ({ jobs := job :: m.jobs, counter := m.counter + 1 }, id)

/-- Outcome of get_job_status: NotFound for an unknown id, otherwise the
status snapshot together with the error field. -/
inductive StatusResult where
  | notFound
  | ok (status : JobStatus) (error : Option String)
  deriving DecidableEq, Repr

/-- Modelled from the spec: get_job_status returns the current status
snapshot and fails with NotFound for an unrecognized id (spec 4.2). -/
def get_job_status (m : JobManager) (id : String) : StatusResult :=
  match findJob m id with
  | Option.none => StatusResult.notFound
  | Option.some j => StatusResult.ok j.status j.error

/-- Update the first job carrying the given id in a registry list. -/
def updateFirst (id : String) (f : Job → Job) : List Job → List Job
  | [] => []
  | j :: rest =>
    if j.jobId == id then f j :: rest else j :: updateFirst id f rest

/-- Outcome of cancel_job. -/
inductive CancelResult where
  | success
  | invalidState
  | notFound
  deriving DecidableEq, Repr

/-- The mutation cancel_job applies to the targeted job record. -/
def cancelMut (k : Job) : Job :=
  { k with status := JobStatus.cancelled, error := Option.some "Job cancelled" }

/-- Modelled from the spec: cancel_job (spec section 4.2): a pending job is
cancelled without ever spawning; a running job has its process terminated
and is finalized as cancelled; a job already in a terminal state yields an
InvalidState error and the registry is left unchanged. -/
def cancel_job (m : JobManager) (id : String) : JobManager × CancelResult :=
  match findJob m id with
  | Option.none => (m, CancelResult.notFound)
  | Option.some j =>
    if j.status = JobStatus.pending ∨ j.status = JobStatus.running then
      ({ m with jobs := updateFirst id cancelMut m.jobs }, CancelResult.success)
    else (m, CancelResult.invalidState)

/-- Log query response: the selected lines and the total line count. -/
structure LogResult where
  lines : List String
  total_lines : Nat
  deriving DecidableEq, Repr

/-- The last k lines of a buffer; all lines when it holds fewer than k. -/
def lastLines (k : Nat) (xs : List String) : List String :=
  xs.drop (xs.length - k)

/-- Modelled from the spec: get_job_log (spec section 4.2): tail equal to 0
returns the entire buffer, tail equal to k positive returns at most the
last k lines, and the total line count always accompanies the lines;
Option.none models the unknown-id case. -/
def get_job_log (m : JobManager) (id : String) (tail : Nat) : Option LogResult :=
  (findJob m id).map (fun j =>
    { lines := if tail = 0 then j.log else lastLines tail j.log,
      total_lines := j.log.length })

/-- The get_job_log tool of src/server.py line 56: the tail parameter
defaults to 50 when omitted (the omitted call is modelled as Option.none)
and is forwarded to the manager unchanged. -/
def server_get_job_log (m : JobManager) (id : String) (tail : Option Nat) :
    Option LogResult :=
  get_job_log m id (tail.getD 50)

/-- Modelled from the spec: the events driving one job through the executor
state machine (spec section 4.2): a successful spawn, a spawn failure, a
process exit carrying an exit code and the captured output tail, and a
cancel request. -/
inductive ExecEvent where
  | spawnOk
  | spawnFail (msg : String)
  | procExit (exitCode : Int) (outputTail : String)
  | cancelReq
  deriving DecidableEq, Repr

/-- Modelled from the spec: how one executor event updates a job record
(spec section 4.2): pending to running on spawn, pending directly to failed
on launch failure, pending or running to cancelled on cancel, running to
completed on exit code 0, running to failed on nonzero exit; an event
arriving in any other state leaves the job unchanged. -/
def applyExec (e : ExecEvent) (j : Job) : Job :=
  match j.status, e with
  | JobStatus.pending, ExecEvent.spawnOk => { j with status := JobStatus.running }
  | JobStatus.pending, ExecEvent.spawnFail msg =>
      { j with status := JobStatus.failed,
               error := Option.some ("Failed to launch process: " ++ msg) }
  | JobStatus.pending, ExecEvent.cancelReq =>
      { j with status := JobStatus.cancelled,
               error := Option.some "Job cancelled" }
  | JobStatus.running, ExecEvent.procExit code tl =>
      if code = 0 then { j with status := JobStatus.completed }
      else { j with status := JobStatus.failed, error := Option.some tl }
  | JobStatus.running, ExecEvent.cancelReq =>
      { j with status := JobStatus.cancelled,
               error := Option.some "Job cancelled" }
  | _, _ => j

/-- The statuses observable while a sequence of executor events is applied
to a job: the status before each event and after the last one. -/
def observedStatuses (es : List ExecEvent) (j : Job) : List JobStatus :=
  match es with
  | [] => [j.status]
  | e :: rest => j.status :: observedStatuses rest (applyExec e j)

/-- The transition set enumerated by the claim on the section 4.2 state
machine: pending to running to terminal, plus the pending to cancelled
shortcut only. -/
def claimedTransition : JobStatus → JobStatus → Bool
  | JobStatus.pending, JobStatus.running => true
  | JobStatus.running, JobStatus.completed => true
  | JobStatus.running, JobStatus.failed => true
  | JobStatus.running, JobStatus.cancelled => true
  | JobStatus.pending, JobStatus.cancelled => true
  | _, _ => false

/-- The full documented transition set: the claimed set plus the
launch-failure shortcut pending to failed (spec sections 4.2 and 8). -/
def documentedTransition : JobStatus → JobStatus → Bool
  | JobStatus.pending, JobStatus.failed => true
  | s, t => claimedTransition s t

/-- Modelled from the spec: the flag fragments the missing manager builds
from the args map (spec sections 4.2 and 6): each key becomes a flag
prefixed with two dashes followed by the rendered value, and a value equal
to the empty string denotes a bare boolean flag. -/
def flagsOf : List (String × ArgVal) → List String
  | [] => []
  | (k, v) :: rest =>
    (if v = ArgVal.str "" then ["--" ++ k] else ["--" ++ k, pyStr v])
      ++ flagsOf rest

/-- Modelled from the spec: the command line built from script_path and the
args map (spec section 4.2). -/
def build_command (script_path : String) (args : List (String × ArgVal)) :
    List String :=
  script_path :: flagsOf args

/-- Python truthiness of an optional string: None and the empty string are
falsy. -/
def optTruthy : Option String → Bool
  | Option.none => false
  | Option.some s => !(s == "")

/-- The Python expression a or b over an optional string: the left operand
when truthy, otherwise the right one. -/
def pyOrStr (a : Option String) (b : String) : String :=
  match a with
  | Option.some s => if s == "" then b else s
  | Option.none => b

/-- The final component of a path, everything after the last slash. -/
def pathBaseName (p : String) : String :=
  (p.splitOn "/").getLastD p

/-- Python pathlib stem: the final path component with its last suffix
removed, where the suffix starts at the last dot when that dot is neither
the first nor the last character of the component. -/
def pathStem (p : String) : String :=
  let nm := pathBaseName p
  let cs := nm.toList
  match ((List.range cs.length).filter (fun i => cs.getD i ' ' = '.')).getLast? with
  | Option.none => nm
  | Option.some i =>
    if 0 < i ∧ i < cs.length - 1 then String.mk (cs.take i) else nm

/-- The scripts directory the server resolves as SCRIPTS_DIR. -/
def scriptsDir : String := "scripts"

/-- The args map built by the submit_shape_search tool of src/server.py
lines 288 to 295: query, database and the optional output and config
entries, all strings. -/
def submit_shape_search_args (query_file database_file : String)
    (output_dir config_file : Option String) : List (String × ArgVal) :=
  [("query", ArgVal.str query_file), ("database", ArgVal.str database_file)]
  ++ (if optTruthy output_dir then [("output", ArgVal.str (output_dir.getD ""))] else [])
  ++ (if optTruthy config_file then [("config", ArgVal.str (config_file.getD ""))] else [])

/-- The submit_shape_search tool of src/server.py lines 286 to 301: builds
the args map from query_file, database_file and the optional output and
config entries, then submits shape_search.py as a background job under the
given name or a default derived from the query file stem. -/
def submit_shape_search (m : JobManager) (query_file database_file : String)
    (output_dir config_file job_name : Option String) : JobManager × String :=
  submit_job m (scriptsDir ++ "/shape_search.py")
    (submit_shape_search_args query_file database_file output_dir config_file)
    (pyOrStr job_name ("shape_search_" ++ pathStem query_file))

/-- The args map built by the submit_database_conversion tool of
src/server.py lines 332 to 338: input, then output taken from output_file
when truthy, otherwise from output_dir joined with converted.db when that
is truthy, then the optional config entry; every value is a string. -/
def submit_database_conversion_args (input_file : String)
    (output_file output_dir config_file : Option String) :
    List (String × ArgVal) :=
  [("input", ArgVal.str input_file)]
  ++ (if optTruthy output_file then [("output", ArgVal.str (output_file.getD ""))]
      else if optTruthy output_dir then
        [("output", ArgVal.str ((output_dir.getD "") ++ "/converted.db"))]
      else [])
  ++ (if optTruthy config_file then [("config", ArgVal.str (config_file.getD ""))] else [])

/-- The submit_database_conversion tool of src/server.py lines 303 to 344. -/
def submit_database_conversion (m : JobManager) (input_file : String)
    (output_file output_dir config_file job_name : Option String) :
    JobManager × String :=
  submit_job m (scriptsDir ++ "/database_conversion.py")
    (submit_database_conversion_args input_file output_file output_dir config_file)
    (pyOrStr job_name ("db_conversion_" ++ pathStem input_file))

/-- The args map built by the submit_reactivity_analysis tool of
src/server.py lines 375 to 391: input, optional output and config entries, a
bare normalize flag recorded as the empty string, and window-size recorded
as the Python int itself whenever it differs from 10. -/
def submit_reactivity_analysis_args (input_file : String)
    (output_dir config_file : Option String) (normalize : Bool)
    (window_size : Int) : List (String × ArgVal) :=
  [("input", ArgVal.str input_file)]
  ++ (if optTruthy output_dir then [("output", ArgVal.str (output_dir.getD ""))] else [])
  ++ (if optTruthy config_file then [("config", ArgVal.str (config_file.getD ""))] else [])
  ++ (if normalize then [("normalize", ArgVal.str "")] else [])
  ++ (if window_size = 10 then [] else [("window-size", ArgVal.int window_size)])

/-- The submit_reactivity_analysis tool of src/server.py. -/
def submit_reactivity_analysis (m : JobManager) (input_file : String)
    (output_dir config_file : Option String) (normalize : Bool)
    (window_size : Int) (job_name : Option String) : JobManager × String :=
  submit_job m (scriptsDir ++ "/reactivity_analysis.py")
    (submit_reactivity_analysis_args input_file output_dir config_file
      normalize window_size)
    (pyOrStr job_name ("reactivity_analysis_" ++ pathStem input_file))

/-- Python exception outcomes of the repository functions. -/
inductive PyExn where
  | fileNotFound (msg : String)
  | valueError (msg : String)
  | indexError (msg : String)
  | otherError (msg : String)
  deriving DecidableEq, Repr

/-- The value placed in an args dict from an optional Python string:
submit_batch_shape_search stores output_dir itself, None included. -/
def optArg : Option String → ArgVal
  | Option.some s => ArgVal.str s
  | Option.none => ArgVal.none

/-- The args dict built and then never used at src/server.py lines 433 to
439 of submit_batch_shape_search. -/
def deadBatchArgs (input_files : List String) (database_file : String)
    (output_dir : Option String) : List (String × ArgVal) :=
  [("input_files", ArgVal.str (String.intercalate "," input_files)),
   ("database", ArgVal.str database_file),
   ("batch_mode", ArgVal.str "true")]
  ++ (if optTruthy output_dir then [("output", ArgVal.str (output_dir.getD ""))] else [])

/-- The submit_batch_shape_search tool of src/server.py lines 398 to 449:
the batch args are computed and dropped, the job actually submitted runs
shape_search.py on the first input file only, and an empty input list makes
the subscript of input_files at index 0 raise an IndexError before any job
is created. -/
def submit_batch_shape_search (m : JobManager) (input_files : List String)
    (database_file : String) (output_dir : Option String)
    (job_name : Option String) : Except PyExn (JobManager × String) :=
  let batchName := "batch_search_" ++ toString input_files.length ++ "_files"
  let _unusedArgs := deadBatchArgs input_files database_file output_dir
  match input_files with
  | [] => Except.error (PyExn.indexError "list index out of range")
  | f0 :: _ =>
    Except.ok (submit_job m (scriptsDir ++ "/shape_search.py")
      [("query", ArgVal.str f0), ("database", ArgVal.str database_file),
       ("output", optArg output_dir)]
      (pyOrStr job_name batchName))

/-- One parsed query entry; its contents are abstracted since only identity
and count matter to the claims. -/
structure QueryEntry where
  entryId : String
  deriving DecidableEq, Repr

/-- The collaborator outcomes one execution of run_shape_search consumes:
whether the two input files exist, the outcome of parse_shape_query_file
and the list returned by validate_shape_data.  The helpers live in
scripts/lib and are treated as external collaborators. -/
structure SearchEnv where
  queryExists : Bool
  dbExists : Bool
  parsedQuery : Except String (List QueryEntry)
  validationErrors : List String

/-- Which generator routine a run invokes, in call order. -/
inductive EngineCall where
  | mockSearchResults
  | mockBinaryDatabase
  | shapewarpBinary
  deriving DecidableEq, Repr

/-- Result payload of run_shape_search: the generator calls performed, the
recorded search method, the query count and the optional output file. -/
structure SearchOutcome where
  calls : List EngineCall
  searchMethod : String
  numQueries : Nat
  outputFile : Option String
  deriving DecidableEq, Repr

/-- run_shape_search of scripts/shape_search.py lines 79 to 142: the
existence checks raise FileNotFoundError, parse failures and empty or
invalid query sets raise ValueError, and both branches of the use_mock test
call generate_mock_search_results, recording the search method as mock or
mock_fallback. -/
def run_shape_search (env : SearchEnv) (query_file database_file : String)
    (output_dir : Option String) (use_mock : Bool) :
    Except PyExn SearchOutcome :=
  if !env.queryExists then
    Except.error (PyExn.fileNotFound ("Query file not found: " ++ query_file))
  else if !env.dbExists then
    Except.error (PyExn.fileNotFound ("Database file not found: " ++ database_file))
  else
    match env.parsedQuery with
    | Except.error e =>
      Except.error (PyExn.valueError ("Failed to parse query file: " ++ e))
    | Except.ok entries =>
      if entries.isEmpty then
        Except.error (PyExn.valueError "No valid query entries found in query file")
      else if !env.validationErrors.isEmpty then
        Except.error (PyExn.valueError
          ("Query validation failed: "
            ++ String.intercalate "; " env.validationErrors))
      else if use_mock then
        Except.ok
          { calls := [EngineCall.mockSearchResults],
            searchMethod := "mock",
            numQueries := entries.length,
            outputFile := if optTruthy output_dir
              then Option.some ((output_dir.getD "") ++ "/search_results.tsv")
              else Option.none }
      else
        Except.ok
          { calls := [EngineCall.mockSearchResults],
            searchMethod := "mock_fallback",
            numQueries := entries.length,
            outputFile := if optTruthy output_dir
              then Option.some ((output_dir.getD "") ++ "/search_results.tsv")
              else Option.none }

/-- The collaborator outcomes run_database_conversion consumes: input
existence and the parse_xml_database outcome, abstracted to the number of
transcripts parsed. -/
structure ConvEnv where
  inputExists : Bool
  parsedTranscripts : Except String Nat

/-- Result payload of run_database_conversion. -/
structure ConvOutcome where
  calls : List EngineCall
  conversionMethod : Option String
  outputFile : Option String
  deriving DecidableEq, Repr

/-- run_database_conversion of scripts/database_conversion.py lines 75 to
127: a missing input raises FileNotFoundError, a parse failure or an empty
transcript set raises ValueError, and when an output file is requested both
branches of the use_mock test call create_mock_binary_database, recording
the conversion method as mock or mock_fallback. -/
def run_database_conversion (env : ConvEnv) (input_file : String)
    (output_file : Option String) (analyze_only use_mock : Bool) :
    Except PyExn ConvOutcome :=
  if !env.inputExists then
    Except.error (PyExn.fileNotFound ("Input file not found: " ++ input_file))
  else
    match env.parsedTranscripts with
    | Except.error e =>
      Except.error (PyExn.valueError ("Failed to parse XML database: " ++ e))
    | Except.ok n =>
      if n = 0 then
        Except.error (PyExn.valueError "No transcripts found in database")
      else if !analyze_only && optTruthy output_file then
        if use_mock then
          Except.ok { calls := [EngineCall.mockBinaryDatabase],
                      conversionMethod := Option.some "mock",
                      outputFile := output_file }
        else
          Except.ok { calls := [EngineCall.mockBinaryDatabase],
                      conversionMethod := Option.some "mock_fallback",
                      outputFile := output_file }
      else
        Except.ok { calls := [], conversionMethod := Option.none,
                    outputFile := Option.none }

/-- The collaborator outcomes run_reactivity_analysis consumes. -/
structure ReactEnv where
  inputExists : Bool
  parsedQuery : Except String (List QueryEntry)
  validationErrors : List String

/-- Result payload of run_reactivity_analysis, statistics abstracted. -/
structure ReactOutcome where
  numEntries : Nat
  deriving DecidableEq, Repr

/-- run_reactivity_analysis of scripts/reactivity_analysis.py lines 79 to
98 error paths: a missing input raises FileNotFoundError; parse failures,
empty entry sets and validation failures raise ValueError. -/
def run_reactivity_analysis (env : ReactEnv) (input_file : String) :
    Except PyExn ReactOutcome :=
  if !env.inputExists then
    Except.error (PyExn.fileNotFound ("Input file not found: " ++ input_file))
  else
    match env.parsedQuery with
    | Except.error e =>
      Except.error (PyExn.valueError ("Failed to parse input file: " ++ e))
    | Except.ok entries =>
      if entries.isEmpty then
        Except.error (PyExn.valueError "No valid entries found in input file")
      else if !env.validationErrors.isEmpty then
        Except.error (PyExn.valueError
          ("Input validation failed: "
            ++ String.intercalate "; " env.validationErrors))
      else Except.ok { numEntries := entries.length }

/-- Response shape of the synchronous tools: the status field and the error
message, mirroring the payload dicts of src/server.py. -/
structure ToolResult where
  status : String
  errorMsg : Option String
  deriving DecidableEq, Repr

/-- The shared try and except structure of the three synchronous tools of
src/server.py: FileNotFoundError, ValueError and every other exception are
caught and turned into an error payload, while success wraps the result. -/
def handleToolErrors {α : Type} (outcome : Except PyExn α) : ToolResult :=
  match outcome with
  | Except.ok _ => { status := "success", errorMsg := Option.none }
  | Except.error (PyExn.fileNotFound m) =>
      { status := "error", errorMsg := Option.some ("File not found: " ++ m) }
  | Except.error (PyExn.valueError m) =>
      { status := "error", errorMsg := Option.some ("Invalid input: " ++ m) }
  | Except.error (PyExn.indexError m) =>
      { status := "error", errorMsg := Option.some m }
  | Except.error (PyExn.otherError m) =>
      { status := "error", errorMsg := Option.some m }

/-- The search_shape_profiles tool of src/server.py lines 132 to 153. -/
def search_shape_profiles (env : SearchEnv) (query_file database_file : String)
    (output_dir : Option String) (use_mock : Bool) : ToolResult :=
  handleToolErrors (run_shape_search env query_file database_file output_dir use_mock)

/-- The convert_database_format tool of src/server.py lines 182 to 197; the
script defaults leave analyze_only false and use_mock true. -/
def convert_database_format (env : ConvEnv) (input_file : String)
    (output_file : Option String) : ToolResult :=
  handleToolErrors (run_database_conversion env input_file output_file false true)

/-- The analyze_reactivity_profiles tool of src/server.py lines 230 to 250. -/
def analyze_reactivity_profiles (env : ReactEnv) (input_file : String) : ToolResult :=
  handleToolErrors (run_reactivity_analysis env input_file)

/-- The engine calls a search run performed; an exception performs none. -/
def searchCallsOf : Except PyExn SearchOutcome → List EngineCall
  | Except.ok o => o.calls
  | Except.error _ => []

/-- The engine calls a conversion run performed; an exception performs none. -/
def convCallsOf : Except PyExn ConvOutcome → List EngineCall
  | Except.ok o => o.calls
  | Except.error _ => []

/-- A concrete pending job used in the concrete evaluations. -/
def sampleJob : Job :=
  { jobId := "job_0", name := "shape_search_query",
    scriptPath := "scripts/shape_search.py",
    args := [("query", ArgVal.str "query.txt")],
    status := JobStatus.pending, log := [], error := Option.none }

/-- A registry holding the sample pending job. -/
def sampleMgr : JobManager := { jobs := [sampleJob], counter := 1 }

/-- The sample job finished normally. -/
def sampleTermJob : Job := { sampleJob with status := JobStatus.completed }

/-- A registry holding one completed job. -/
def sampleMgrTerminal : JobManager := { jobs := [sampleTermJob], counter := 1 }

/-- A running job with a three-line log buffer. -/
def sampleLogJob : Job :=
  { sampleJob with
    jobId := "job_1", status := JobStatus.running, log := ["a", "b", "c"] }

/-- A registry holding the logged job. -/
def sampleLogMgr : JobManager := { jobs := [sampleLogJob], counter := 2 }

/-- An empty registry. -/
def emptyMgr : JobManager := { jobs := [], counter := 0 }

/-- An environment in which run_shape_search succeeds on one query. -/
def searchEnvOk : SearchEnv :=
  { queryExists := true, dbExists := true,
    parsedQuery := Except.ok [{ entryId := "q1" }], validationErrors := [] }

/-- An environment in which run_database_conversion succeeds. -/
def convEnvOk : ConvEnv := { inputExists := true, parsedTranscripts := Except.ok 2 }

/-- An environment in which run_reactivity_analysis succeeds. -/
def reactEnvSample : ReactEnv :=
  { inputExists := true, parsedQuery := Except.ok [{ entryId := "q1" }],
    validationErrors := [] }

/-- The outcome run_shape_search returns in the concrete mock-disabled run. -/
def sampleSearchOutcome : SearchOutcome :=
  { calls := [EngineCall.mockSearchResults], searchMethod := "mock_fallback",
    numQueries := 1, outputFile := Option.none }

/-- The outcome run_database_conversion returns in the concrete
mock-disabled run. -/
def sampleConvOutcome : ConvOutcome :=
  { calls := [EngineCall.mockBinaryDatabase],
    conversionMethod := Option.some "mock_fallback",
    outputFile := Option.some "out.db" }

/-! ## Registry lemmas -/

/-- Looking up the id returned by submit_job finds the freshly created job. -/
theorem findJob_submit (m : JobManager) (sp : String)
    (args : List (String × ArgVal)) (nm : String) :
    findJob (submit_job m sp args nm).1 (submit_job m sp args nm).2
      = Option.some
          { jobId := "job_" ++ toString m.counter, name := nm,
            scriptPath := sp, args := args, status := JobStatus.pending,
            log := [], error := Option.none } := by
  simp only [submit_job, findJob]
  exact List.find?_cons_of_pos _ (by simp)

/-- Cancelling preserves the job id field. -/
theorem cancelMut_jobId (k : Job) : (cancelMut k).jobId = k.jobId := rfl

/-- Lookup after the cancel mutation of the first matching job. -/
theorem find?_updateFirst (id : String) (l : List Job) :
    (updateFirst id cancelMut l).find? (fun k => k.jobId == id)
      = (l.find? (fun k => k.jobId == id)).map cancelMut := by
  induction l with
  | nil => simp [updateFirst]
  | cons a t ih =>
    by_cases h : (a.jobId == id) = true
    · have hca : ((cancelMut a).jobId == id) = true := by
        rw [cancelMut_jobId]; exact h
      simp only [updateFirst, if_pos h]
      rw [@List.find?_cons_of_pos _ (fun k => k.jobId == id) (cancelMut a) t hca,
        @List.find?_cons_of_pos _ (fun k => k.jobId == id) a t h]
      rfl
    · simp only [updateFirst, if_neg h]
      rw [@List.find?_cons_of_neg _ (fun k => k.jobId == id) a
          (updateFirst id cancelMut t) h,
        @List.find?_cons_of_neg _ (fun k => k.jobId == id) a t h]
      exact ih

/-! ## Executor state-machine lemmas -/

/-- Every executor event either leaves the status alone or moves it along a
documented transition. -/
theorem applyExec_status_step (e : ExecEvent) (j : Job) :
    (applyExec e j).status = j.status
      ∨ documentedTransition j.status (applyExec e j).status = true := by
  obtain ⟨ji, jn, jsp, ja, st, jl, je⟩ := j
  cases st <;> cases e <;> first
    | (left; rfl)
    | (right; rfl)
    | (rename_i code tl
       by_cases hc : code = 0 <;>
         simp [applyExec, hc, documentedTransition, claimedTransition])

/-- The rank along pending, running, terminal never decreases. -/
theorem applyExec_rank_mono (e : ExecEvent) (j : Job) :
    j.status.rank ≤ (applyExec e j).status.rank := by
  rcases applyExec_status_step e j with h | h
  · rw [h]
  · have hall : ∀ s t : JobStatus, documentedTransition s t = true →
        s.rank ≤ t.rank := by decide
    exact hall _ _ h

/-- Terminal states absorb every executor event. -/
theorem applyExec_of_terminal (e : ExecEvent) (j : Job)
    (h : j.status.isTerminal = true) : applyExec e j = j := by
  obtain ⟨ji, jn, jsp, ja, st, jl, je⟩ := j
  cases st <;> simp only [JobStatus.isTerminal] at h <;> cases e <;>
    first
      | rfl
      | exact absurd h (by decide)

/-- In a terminal state every later observation shows the same status. -/
theorem observed_terminal (es : List ExecEvent) (j : Job)
    (h : j.status.isTerminal = true) :
    ∀ s ∈ observedStatuses es j, s = j.status := by
  induction es generalizing j with
  | nil => intro s hs; simpa [observedStatuses] using hs
  | cons e t ih =>
    intro s hs
    simp only [observedStatuses] at hs
    rcases List.mem_cons.mp hs with h1 | h1
    · exact h1
    · rw [applyExec_of_terminal e j h] at h1
      exact ih j h s h1

/-! ## Claims C1 to C3 -/

/-- C1: submit_job creates the job in status pending and returns its id
with no process activity having run, and get_job_status on the returned id
never reports NotFound; the same holds through the submit_shape_search tool
of src/server.py. -/
theorem submit_creates_pending_and_findable (m : JobManager) (sp : String)
    (args : List (String × ArgVal)) (nm : String)
    (m2 : JobManager) (qf db : String) (od cf jn : Option String) :
    (findJob (submit_job m sp args nm).1 (submit_job m sp args nm).2).map Job.status
        = Option.some JobStatus.pending
    ∧ get_job_status (submit_job m sp args nm).1 (submit_job m sp args nm).2
        ≠ StatusResult.notFound
    ∧ (findJob (submit_shape_search m2 qf db od cf jn).1
          (submit_shape_search m2 qf db od cf jn).2).map Job.status
        = Option.some JobStatus.pending
    ∧ get_job_status (submit_shape_search m2 qf db od cf jn).1
          (submit_shape_search m2 qf db od cf jn).2
        ≠ StatusResult.notFound := by
  have h1 := findJob_submit m sp args nm
  have h2 := findJob_submit m2 (scriptsDir ++ "/shape_search.py")
    (submit_shape_search_args qf db od cf)
    (pyOrStr jn ("shape_search_" ++ pathStem qf))
  refine ⟨?_, ?_, ?_, ?_⟩
  · rw [h1]; rfl
  · simp [get_job_status, h1]
  · simp only [submit_shape_search]
    rw [h2]; rfl
  · simp only [submit_shape_search, get_job_status, h2]
    simp

/-- C2 counterexample: a spawn failure moves a concrete pending job directly
to failed, a transition outside the set enumerated by the claim, which
allows only the pending to cancelled shortcut. -/
theorem claimed_transitions_incomplete :
    sampleJob.status = JobStatus.pending
    ∧ (applyExec (ExecEvent.spawnFail "no such file") sampleJob).status
        = JobStatus.failed
    ∧ claimedTransition JobStatus.pending JobStatus.failed = false := by
  decide

/-- C2 (amended): every executor event either leaves the status unchanged
or follows a documented transition, namely the section 4.2 machine plus the
documented launch-failure shortcut pending to failed; the rank along
pending, running, terminal never decreases; terminal states have no
outgoing transition, including through cancel_job, which leaves a terminal
job and the registry unchanged. -/
theorem exec_transitions_documented (e : ExecEvent) (j : Job)
    (m : JobManager) (id : String) (k : Job) :
    ((applyExec e j).status = j.status
      ∨ documentedTransition j.status (applyExec e j).status = true)
    ∧ j.status.rank ≤ (applyExec e j).status.rank
    ∧ (j.status.isTerminal = true → applyExec e j = j)
    ∧ (findJob m id = Option.some k → k.status.isTerminal = true →
        (cancel_job m id).1 = m ∧ (cancel_job m id).2 = CancelResult.invalidState) := by
  refine ⟨applyExec_status_step e j, applyExec_rank_mono e j,
    applyExec_of_terminal e j, ?_⟩
  intro hf ht
  have hnpr : ¬(k.status = JobStatus.pending ∨ k.status = JobStatus.running) := by
    cases hs : k.status <;> rw [hs] at ht <;>
      simp only [JobStatus.isTerminal] at ht <;> simp_all
  constructor <;> simp [cancel_job, hf, hnpr]

/-- C2 witness: the amended theorem applied to a concrete completed job and
a concrete registry holding it. -/
theorem exec_transitions_documented_witness :
    applyExec ExecEvent.spawnOk sampleTermJob = sampleTermJob
    ∧ (cancel_job sampleMgrTerminal "job_0").2 = CancelResult.invalidState := by
  have h := exec_transitions_documented ExecEvent.spawnOk sampleTermJob
    sampleMgrTerminal "job_0" sampleTermJob
  exact ⟨h.2.2.1 (by decide), (h.2.2.2 (by decide) (by decide)).2⟩

/-- C3: cancel_job on a pending or running job reports success and leaves
the job cancelled, a second cancel_job on the now-cancelled job reports
InvalidState, and cancel_job on a job already terminal reports InvalidState
and leaves the registry unchanged. -/
theorem cancel_job_semantics (m : JobManager) (id : String) (j : Job)
    (hf : findJob m id = Option.some j) :
    ((j.status = JobStatus.pending ∨ j.status = JobStatus.running) →
      (cancel_job m id).2 = CancelResult.success
      ∧ (findJob (cancel_job m id).1 id).map Job.status
          = Option.some JobStatus.cancelled
      ∧ (cancel_job (cancel_job m id).1 id).2 = CancelResult.invalidState)
    ∧ (j.status.isTerminal = true →
      (cancel_job m id).2 = CancelResult.invalidState
      ∧ (cancel_job m id).1 = m) := by
  constructor
  · intro hpr
    have hc : cancel_job m id
        = ({ m with jobs := updateFirst id cancelMut m.jobs },
           CancelResult.success) := by
      simp [cancel_job, hf, hpr]
    have hfind : findJob { m with jobs := updateFirst id cancelMut m.jobs } id
        = Option.some (cancelMut j) := by
      simp only [findJob] at hf ⊢
      rw [find?_updateFirst, hf]
      rfl
    refine ⟨by rw [hc], ?_, ?_⟩
    · rw [hc]
      simp only [hfind]
      rfl
    · rw [hc]
      simp [cancel_job, hfind, cancelMut]
  · intro ht
    have hnpr : ¬(j.status = JobStatus.pending ∨ j.status = JobStatus.running) := by
      cases hs : j.status <;> rw [hs] at ht <;>
        simp only [JobStatus.isTerminal] at ht <;> simp_all
    constructor <;> simp [cancel_job, hf, hnpr]

/-- C3 witness: cancelling the concrete pending job succeeds, the job ends
cancelled, and a second cancel reports InvalidState. -/
theorem cancel_job_semantics_witness :
    (cancel_job sampleMgr "job_0").2 = CancelResult.success
    ∧ (findJob (cancel_job sampleMgr "job_0").1 "job_0").map Job.status
        = Option.some JobStatus.cancelled
    ∧ (cancel_job (cancel_job sampleMgr "job_0").1 "job_0").2
        = CancelResult.invalidState := by
  have h := cancel_job_semantics sampleMgr "job_0" sampleJob (by decide)
  have h1 := h.1 (Or.inl (by decide))
  exact ⟨h1.1, h1.2.1, h1.2.2⟩

/-! ## Claims C4, C5 and C10 -/

/-- C4: for a known job id, get_job_log with tail 0 returns the whole log
buffer, with positive tail k it returns exactly the last k lines of the
buffer, all lines when the buffer holds fewer than k, and every response
carries the total line count. -/
theorem get_job_log_tail_semantics (m : JobManager) (id : String) (j : Job)
    (tail : Nat) (hf : findJob m id = Option.some j) :
    get_job_log m id 0
      = Option.some { lines := j.log, total_lines := j.log.length }
    ∧ (0 < tail →
        get_job_log m id tail
          = Option.some { lines := lastLines tail j.log,
                          total_lines := j.log.length }
        ∧ lastLines tail j.log <:+ j.log
        ∧ (lastLines tail j.log).length = min tail j.log.length
        ∧ (j.log.length ≤ tail → lastLines tail j.log = j.log)) := by
  constructor
  · simp [get_job_log, hf]
  · intro ht
    have hne : tail ≠ 0 := Nat.pos_iff_ne_zero.mp ht
    refine ⟨by simp [get_job_log, hf, hne], List.drop_suffix _ _, ?_, ?_⟩
    · rw [lastLines, List.length_drop]; omega
    · intro hle
      rw [lastLines, Nat.sub_eq_zero_of_le hle, List.drop_zero]

/-- C4 witness: the concrete three-line buffer, in full and with tail 2. -/
theorem get_job_log_tail_witness :
    get_job_log sampleLogMgr "job_1" 0
      = Option.some { lines := ["a", "b", "c"], total_lines := 3 }
    ∧ get_job_log sampleLogMgr "job_1" 2
      = Option.some { lines := ["b", "c"], total_lines := 3 } := by
  have h := get_job_log_tail_semantics sampleLogMgr "job_1" sampleLogJob 2
    (by decide)
  refine ⟨h.1, ?_⟩
  rw [(h.2 (by decide)).1]
  rfl

/-- C5: a spawn failure moves a pending job directly to failed with a
launch-failure error recorded, and along any continuation of executor
events the job is never observed in the running state. -/
theorem spawn_failure_goes_directly_to_failed (j : Job) (msg : String)
    (es : List ExecEvent) (hp : j.status = JobStatus.pending) :
    (applyExec (ExecEvent.spawnFail msg) j).status = JobStatus.failed
    ∧ (applyExec (ExecEvent.spawnFail msg) j).error
        = Option.some ("Failed to launch process: " ++ msg)
    ∧ JobStatus.running ∉ observedStatuses es (applyExec (ExecEvent.spawnFail msg) j)
    ∧ observedStatuses (ExecEvent.spawnFail msg :: es) j
        = j.status :: observedStatuses es (applyExec (ExecEvent.spawnFail msg) j) := by
  obtain ⟨ji, jn, jsp, ja, st, jl, je⟩ := j
  change st = JobStatus.pending at hp
  subst hp
  refine ⟨rfl, rfl, ?_, rfl⟩
  intro hmem
  have hterm : (applyExec (ExecEvent.spawnFail msg)
      ⟨ji, jn, jsp, ja, JobStatus.pending, jl, je⟩).status.isTerminal = true := rfl
  have hs := observed_terminal es _ hterm _ hmem
  exact JobStatus.noConfusion hs

/-- C5 witness: a concrete spawn failure on the sample pending job. -/
theorem spawn_failure_witness :
    (applyExec (ExecEvent.spawnFail "boom") sampleJob).status = JobStatus.failed
    ∧ JobStatus.running ∉ observedStatuses [ExecEvent.cancelReq]
        (applyExec (ExecEvent.spawnFail "boom") sampleJob) := by
  have h := spawn_failure_goes_directly_to_failed sampleJob "boom"
    [ExecEvent.cancelReq] (by decide)
  exact ⟨h.1, h.2.2.1⟩

/-- C10: calling the get_job_log tool without a tail argument behaves as
tail 50, so at most the last 50 lines come back, while an explicit tail 0
returns the whole buffer. -/
theorem get_job_log_default_tail (m : JobManager) (id : String) (j : Job)
    (hf : findJob m id = Option.some j) :
    server_get_job_log m id Option.none = get_job_log m id 50
    ∧ server_get_job_log m id Option.none
        = Option.some { lines := lastLines 50 j.log,
                        total_lines := j.log.length }
    ∧ (lastLines 50 j.log).length ≤ 50
    ∧ server_get_job_log m id (Option.some 0)
        = Option.some { lines := j.log, total_lines := j.log.length } := by
  refine ⟨rfl, ?_, ?_, ?_⟩
  · simp [server_get_job_log, get_job_log, hf]
  · rw [lastLines, List.length_drop]; omega
  · simp [server_get_job_log, get_job_log, hf]

/-- C10 witness: the defaulted call and the explicit tail 0 call on the
concrete three-line buffer. -/
theorem get_job_log_default_witness :
    server_get_job_log sampleLogMgr "job_1" Option.none
      = Option.some { lines := ["a", "b", "c"], total_lines := 3 }
    ∧ server_get_job_log sampleLogMgr "job_1" (Option.some 0)
      = Option.some { lines := ["a", "b", "c"], total_lines := 3 } := by
  have h := get_job_log_default_tail sampleLogMgr "job_1" sampleLogJob (by decide)
  constructor
  · rw [h.2.1]; rfl
  · exact h.2.2.2

/-! ## Claim C6 -/

/-- The flag fragments equal the joined per-pair fragments. -/
theorem flagsOf_eq_join (args : List (String × ArgVal)) :
    flagsOf args = (args.map (fun kv =>
      if kv.2 = ArgVal.str "" then ["--" ++ kv.1]
      else ["--" ++ kv.1, pyStr kv.2])).flatten := by
  induction args with
  | nil => rfl
  | cons a t ih =>
    obtain ⟨k, v⟩ := a
    simp [flagsOf, ih]

/-- A member of a conditionally included list is a member of the list. -/
theorem mem_ite_list {α : Type} (c : Bool) (l : List α) (x : α)
    (h : x ∈ (if c = true then l else [])) : x ∈ l := by
  cases c
  · simp at h
  · simpa using h

/-- C6 counterexample: two non-string args values reach submit_job:
submit_reactivity_analysis with window_size 5 places the Python int 5 under
the window-size key, and submit_batch_shape_search without an output
directory submits a job whose output value is Python None. -/
theorem reactivity_args_contain_int :
    ("window-size", ArgVal.int 5)
      ∈ submit_reactivity_analysis_args "query.txt" Option.none Option.none true 5
    ∧ ((submit_reactivity_analysis_args "query.txt" Option.none Option.none
        true 5).all (fun kv => isStrVal kv.2)) = false
    ∧ submit_batch_shape_search emptyMgr ["a.txt"] "db.db" Option.none Option.none
        = Except.ok (submit_job emptyMgr (scriptsDir ++ "/shape_search.py")
            [("query", ArgVal.str "a.txt"), ("database", ArgVal.str "db.db"),
             ("output", ArgVal.none)]
            (pyOrStr Option.none
              ("batch_search_" ++ toString (["a.txt"] : List String).length
                ++ "_files")))
    ∧ isStrVal ArgVal.none = false := by
  refine ⟨by decide, by decide, rfl, rfl⟩

/-- C6 (amended): the command line carries, for each args pair in order,
the flag built from the key followed by the rendered value, a value equal
to the empty string yielding the bare flag; submit_reactivity_analysis with
normalize true records the normalize key with the empty string; and every
args value the submit tools pass to submit_job is a string, except that
submit_reactivity_analysis passes window-size as the int window_size
whenever it differs from 10, and submit_batch_shape_search passes output as
Python None when output_dir is absent. -/
theorem build_command_flag_shape (sp : String) (args : List (String × ArgVal))
    (input qf db f0 bdb : String) (od cf outf odir bod : Option String)
    (norm : Bool) (w : Int) :
    build_command sp args
      = sp :: (args.map (fun kv =>
          if kv.2 = ArgVal.str "" then ["--" ++ kv.1]
          else ["--" ++ kv.1, pyStr kv.2])).flatten
    ∧ ("normalize", ArgVal.str "")
        ∈ submit_reactivity_analysis_args input od cf true w
    ∧ (∀ kv ∈ submit_shape_search_args qf db od cf, isStrVal kv.2 = true)
    ∧ (∀ kv ∈ submit_database_conversion_args input outf odir cf,
        isStrVal kv.2 = true)
    ∧ (∀ kv ∈ submit_reactivity_analysis_args input od cf norm w,
        isStrVal kv.2 = true
        ∨ (kv.1 = "window-size" ∧ kv.2 = ArgVal.int w ∧ w ≠ 10))
    ∧ (∀ kv ∈ [("query", ArgVal.str f0), ("database", ArgVal.str bdb),
          ("output", optArg bod)],
        isStrVal kv.2 = true
        ∨ (kv.1 = "output" ∧ kv.2 = ArgVal.none ∧ bod = Option.none)) := by
  refine ⟨?_, ?_, ?_, ?_, ?_, ?_⟩
  · rw [build_command, flagsOf_eq_join]
  · refine List.mem_append.mpr (Or.inl (List.mem_append.mpr (Or.inr ?_)))
    simp
  · intro kv hkv
    simp only [submit_shape_search_args, List.mem_append] at hkv
    rcases hkv with (h | h) | h
    · rcases List.mem_cons.mp h with rfl | h
      · rfl
      · simp only [List.mem_singleton] at h
        subst h
        rfl
    · have h2 := mem_ite_list _ _ _ h
      simp only [List.mem_singleton] at h2
      subst h2
      rfl
    · have h2 := mem_ite_list _ _ _ h
      simp only [List.mem_singleton] at h2
      subst h2
      rfl
  · intro kv hkv
    simp only [submit_database_conversion_args, List.mem_append] at hkv
    rcases hkv with (h | h) | h
    · simp only [List.mem_singleton] at h
      subst h
      rfl
    · by_cases h1 : optTruthy outf = true
      · rw [if_pos h1] at h
        simp only [List.mem_singleton] at h
        subst h
        rfl
      · rw [if_neg h1] at h
        by_cases h2 : optTruthy odir = true
        · rw [if_pos h2] at h
          simp only [List.mem_singleton] at h
          subst h
          rfl
        · rw [if_neg h2] at h
          simp at h
    · have h2 := mem_ite_list _ _ _ h
      simp only [List.mem_singleton] at h2
      subst h2
      rfl
  · intro kv hkv
    simp only [submit_reactivity_analysis_args, List.mem_append] at hkv
    rcases hkv with ((((h | h) | h) | h) | h)
    · simp only [List.mem_singleton] at h
      subst h
      left; rfl
    · have h2 := mem_ite_list _ _ _ h
      simp only [List.mem_singleton] at h2
      subst h2
      left; rfl
    · have h2 := mem_ite_list _ _ _ h
      simp only [List.mem_singleton] at h2
      subst h2
      left; rfl
    · have h2 := mem_ite_list _ _ _ h
      simp only [List.mem_singleton] at h2
      subst h2
      left; rfl
    · by_cases h3 : w = 10
      · rw [if_pos h3] at h
        simp at h
      · rw [if_neg h3] at h
        simp only [List.mem_singleton] at h
        subst h
        right
        exact ⟨rfl, rfl, h3⟩
  · intro kv hkv
    rcases List.mem_cons.mp hkv with rfl | hkv
    · left; rfl
    · rcases List.mem_cons.mp hkv with rfl | hkv
      · left; rfl
      · simp only [List.mem_singleton] at hkv
        subst hkv
        cases bod with
        | some s => left; rfl
        | none => right; exact ⟨rfl, rfl, rfl⟩

/-- C6 witness: the amended theorem applied at concrete argument sets,
covering the normalize flag, a string value of submit_shape_search and the
batch output value with no output directory. -/
theorem build_command_flag_witness :
    ("normalize", ArgVal.str "")
      ∈ submit_reactivity_analysis_args "q.txt" Option.none Option.none true 7
    ∧ isStrVal (("query", ArgVal.str "q.txt") : String × ArgVal).2 = true
    ∧ (isStrVal (("output", optArg (Option.none : Option String))
          : String × ArgVal).2 = true
      ∨ ((("output", optArg (Option.none : Option String))
            : String × ArgVal).1 = "output"
        ∧ (("output", optArg (Option.none : Option String))
            : String × ArgVal).2 = ArgVal.none
        ∧ (Option.none : Option String) = Option.none)) := by
  have h := build_command_flag_shape "scripts/reactivity_analysis.py" []
    "q.txt" "q.txt" "d.db" "a.txt" "db.db" Option.none Option.none Option.none
    Option.none Option.none true 7
  exact ⟨h.2.1, h.2.2.1 ("query", ArgVal.str "q.txt") (by decide),
    h.2.2.2.2.2 ("output", optArg Option.none) (by decide)⟩

/-! ## Claims C7 to C9 -/

/-- A successful search run always went through the mock generator. -/
theorem run_shape_search_ok_calls (env : SearchEnv) (qf db : String)
    (od : Option String) (um : Bool) (o : SearchOutcome)
    (h : run_shape_search env qf db od um = Except.ok o) :
    o.calls = [EngineCall.mockSearchResults] := by
  unfold run_shape_search at h
  repeat' split at h
  all_goals first
    | exact Except.noConfusion h
    | (injection h with h2; rw [← h2])

/-- A successful conversion run either wrote through the mock writer or
wrote nothing at all. -/
theorem run_database_conversion_ok_calls (env : ConvEnv) (inf : String)
    (outf : Option String) (ao um : Bool) (o : ConvOutcome)
    (h : run_database_conversion env inf outf ao um = Except.ok o) :
    (o.calls = [EngineCall.mockBinaryDatabase] ∧ o.outputFile = outf)
    ∨ (o.calls = [] ∧ o.outputFile = Option.none) := by
  unfold run_database_conversion at h
  repeat' split at h
  all_goals first
    | exact Except.noConfusion h
    | (injection h with h2; rw [← h2]; left; exact ⟨rfl, rfl⟩)
    | (injection h with h2; rw [← h2]; right; exact ⟨rfl, rfl⟩)

/-- C7: run_shape_search produces its results through
generate_mock_search_results and run_database_conversion writes its output
through create_mock_binary_database, in every configuration including
use_mock false; neither operation ever invokes the external SHAPEwarp
executable. -/
theorem engine_never_invoked (env : SearchEnv) (qf db : String)
    (od : Option String) (um : Bool) (cenv : ConvEnv) (inf : String)
    (outf : Option String) (ao um2 : Bool) :
    EngineCall.shapewarpBinary ∉ searchCallsOf (run_shape_search env qf db od um)
    ∧ (∀ o, run_shape_search env qf db od um = Except.ok o →
        o.calls = [EngineCall.mockSearchResults])
    ∧ EngineCall.shapewarpBinary
        ∉ convCallsOf (run_database_conversion cenv inf outf ao um2)
    ∧ (∀ o, run_database_conversion cenv inf outf ao um2 = Except.ok o →
        o.outputFile ≠ Option.none → o.calls = [EngineCall.mockBinaryDatabase]) := by
  refine ⟨?_, ?_, ?_, ?_⟩
  · cases hres : run_shape_search env qf db od um with
    | error e => simp [searchCallsOf]
    | ok o =>
      have hc := run_shape_search_ok_calls env qf db od um o hres
      simp [searchCallsOf, hc]
  · intro o h
    exact run_shape_search_ok_calls env qf db od um o h
  · cases hres : run_database_conversion cenv inf outf ao um2 with
    | error e => simp [convCallsOf]
    | ok o =>
      rcases run_database_conversion_ok_calls cenv inf outf ao um2 o hres with
        ⟨hc, _⟩ | ⟨hc, _⟩ <;> simp [convCallsOf, hc]
  · intro o h hout
    rcases run_database_conversion_ok_calls cenv inf outf ao um2 o h with
      ⟨hc, _⟩ | ⟨_, ho⟩
    · exact hc
    · exact absurd ho hout

/-- C7 witness: concrete runs with use_mock false still go through the two
mock routines. -/
theorem engine_never_invoked_witness :
    sampleSearchOutcome.calls = [EngineCall.mockSearchResults]
    ∧ sampleConvOutcome.calls = [EngineCall.mockBinaryDatabase] := by
  have h := engine_never_invoked searchEnvOk "q.txt" "d.db" Option.none false
    convEnvOk "in.xml" (Option.some "out.db") false false
  exact ⟨h.2.1 sampleSearchOutcome rfl, h.2.2.2 sampleConvOutcome rfl (by decide)⟩

/-- C8: submit_batch_shape_search submits exactly one job, whose args name
only the first input file together with the database and output directory;
neither the remaining input files nor the dead batch args reach the
submitted job; the empty input list yields an unhandled IndexError rather
than a job id or a structured payload. -/
theorem submit_batch_first_file_only (m : JobManager) (f0 : String)
    (rest rest2 : List String) (db : String) (od jn : Option String) :
    submit_batch_shape_search m [] db od jn
      = Except.error (PyExn.indexError "list index out of range")
    ∧ (∀ r, submit_batch_shape_search m (f0 :: rest) db od jn = Except.ok r →
        r.1.jobs.length = m.jobs.length + 1
        ∧ (findJob r.1 r.2).map Job.args
            = Option.some [("query", ArgVal.str f0), ("database", ArgVal.str db),
                ("output", optArg od)]
        ∧ (findJob r.1 r.2).map Job.status = Option.some JobStatus.pending)
    ∧ (rest.length = rest2.length →
        submit_batch_shape_search m (f0 :: rest) db od jn
          = submit_batch_shape_search m (f0 :: rest2) db od jn) := by
  refine ⟨rfl, ?_, ?_⟩
  · intro r h
    have h2 : submit_job m (scriptsDir ++ "/shape_search.py")
        [("query", ArgVal.str f0), ("database", ArgVal.str db),
         ("output", optArg od)]
        (pyOrStr jn ("batch_search_" ++ toString (f0 :: rest).length ++ "_files"))
        = r := by
      injection h
    rw [← h2]
    have hf := findJob_submit m (scriptsDir ++ "/shape_search.py")
      [("query", ArgVal.str f0), ("database", ArgVal.str db),
       ("output", optArg od)]
      (pyOrStr jn ("batch_search_" ++ toString (f0 :: rest).length ++ "_files"))
    refine ⟨?_, ?_, ?_⟩
    · simp [submit_job]
    · rw [hf]; rfl
    · rw [hf]; rfl
  · intro hlen
    simp [submit_batch_shape_search, hlen]

/-- C8 witness: two concrete two-file batches differing only in the second
file submit identical jobs, and the nonempty batch adds exactly one job. -/
theorem submit_batch_first_file_only_witness :
    submit_batch_shape_search emptyMgr ["a.txt", "b.txt"] "db.db"
        Option.none Option.none
      = submit_batch_shape_search emptyMgr ["a.txt", "c.txt"] "db.db"
        Option.none Option.none
    ∧ (submit_job emptyMgr (scriptsDir ++ "/shape_search.py")
        [("query", ArgVal.str "a.txt"), ("database", ArgVal.str "db.db"),
         ("output", optArg Option.none)]
        (pyOrStr Option.none
          ("batch_search_" ++ toString (["a.txt", "b.txt"] : List String).length
            ++ "_files"))).1.jobs.length
      = emptyMgr.jobs.length + 1 := by
  have h := submit_batch_first_file_only emptyMgr "a.txt" ["b.txt"] ["c.txt"]
    "db.db" Option.none Option.none
  exact ⟨h.2.2 rfl, (h.2.1 _ rfl).1⟩

/-- C9: the three synchronous tools always answer with a status field equal
to success or error, and the shared exception handler turns every exception
kind raised by a run function into an error payload carrying a message,
while success carries no error message. -/
theorem sync_tools_catch_exceptions (env : SearchEnv) (qf db : String)
    (od : Option String) (um : Bool) (cenv : ConvEnv) (inf : String)
    (outf : Option String) (renv : ReactEnv) (rin : String)
    (e : PyExn) (u : Unit) :
    ((search_shape_profiles env qf db od um).status = "success"
      ∨ (search_shape_profiles env qf db od um).status = "error")
    ∧ ((convert_database_format cenv inf outf).status = "success"
      ∨ (convert_database_format cenv inf outf).status = "error")
    ∧ ((analyze_reactivity_profiles renv rin).status = "success"
      ∨ (analyze_reactivity_profiles renv rin).status = "error")
    ∧ (@handleToolErrors Unit (Except.error e)).status = "error"
    ∧ (@handleToolErrors Unit (Except.error e)).errorMsg ≠ Option.none
    ∧ @handleToolErrors Unit (Except.ok u)
        = { status := "success", errorMsg := Option.none } := by
  refine ⟨?_, ?_, ?_, ?_, ?_, rfl⟩
  · unfold search_shape_profiles
    cases run_shape_search env qf db od um with
    | ok o => left; rfl
    | error pe => right; cases pe <;> rfl
  · unfold convert_database_format
    cases run_database_conversion cenv inf outf false true with
    | ok o => left; rfl
    | error pe => right; cases pe <;> rfl
  · unfold analyze_reactivity_profiles
    cases run_reactivity_analysis renv rin with
    | ok o => left; rfl
    | error pe => right; cases pe <;> rfl
  · cases e <;> rfl
  · cases e <;> simp [handleToolErrors]

/-- C1 witness: the submit operations applied to the empty registry. -/
theorem submit_creates_pending_witness :
    (findJob (submit_job emptyMgr "scripts/shape_search.py" [] "batch").1
        (submit_job emptyMgr "scripts/shape_search.py" [] "batch").2).map Job.status
      = Option.some JobStatus.pending
    ∧ get_job_status
        (submit_shape_search emptyMgr "q.txt" "d.db"
          Option.none Option.none Option.none).1
        (submit_shape_search emptyMgr "q.txt" "d.db"
          Option.none Option.none Option.none).2
      ≠ StatusResult.notFound := by
  have h := submit_creates_pending_and_findable emptyMgr
    "scripts/shape_search.py" [] "batch" emptyMgr "q.txt" "d.db"
    Option.none Option.none Option.none
  exact ⟨h.1, h.2.2.2⟩

/-- C9 witness: the tools and the handler applied at concrete inputs. -/
theorem sync_tools_catch_witness :
    ((search_shape_profiles searchEnvOk "q.txt" "d.db" Option.none true).status
        = "success"
      ∨ (search_shape_profiles searchEnvOk "q.txt" "d.db" Option.none true).status
        = "error")
    ∧ (@handleToolErrors Unit (Except.error (PyExn.otherError "boom"))).status
        = "error" := by
  have h := sync_tools_catch_exceptions searchEnvOk "q.txt" "d.db"
    Option.none true convEnvOk "in.xml" Option.none reactEnvSample "r.txt"
    (PyExn.otherError "boom") ()
  exact ⟨h.1, h.2.2.2.1⟩
